import Mathlib

/-!
Verification development for the wespeaker training script
src/wenet_speaker/bin/train.py.

The script is an orchestration layer: it reads a configuration, reads the
rank and world size from environment variables, initialises a distributed
process group, creates the model directory (rank 0 only, exiting with code 1
when it already exists), builds dataset, dataloader, model, criterion,
optimizer and schedulers through external framework calls, saves the config
on rank 0, and then runs an epoch loop that calls an external executor once
per epoch, saving rank-0 checkpoints and finally a rank-0 symlink to the
last checkpoint.

We embed the script as a trace semantics: running the script produces a
list of events (environment reads, external calls, barriers, checkpoint
saves, the final symlink, ...) together with an outcome (normal completion,
a process exit, or a propagated exception).  External framework calls are
opaque: a `World` records, for every call site, whether that call raises,
and supplies the values the script obtains from the outside (environment
variables, the contents of the label file).  Pure Python computations of
the script (the effective epoch count, the checkpoint-save condition, the
projection class count) are translated directly; Python floats are
idealised as rationals, and Python int() truncation toward zero is modelled
by Int.tdiv on the numerator and denominator.
-/

namespace WS

/-- External call sites of train.py, in source order.  Each corresponds to a
call into code outside the script (torch, wenet_speaker utility modules,
file system, ...) that can raise an exception which train.py does not
catch. -/
inductive CallSite
  | parseConfig          -- parse_config_or_kwargs (line 30)
  | initProcessGroup     -- dist.init_process_group (line 37)
  | barrierCall          -- dist.barrier (lines 46, 145, 151)
  | genLogger            -- genlogger (line 48)
  | setSeed              -- set_seed (line 60)
  | readScpWav           -- read_scp(train_scp) (line 65)
  | readScpLabel         -- read_scp(train_label) (line 71)
  | buildDataset         -- FeatList_LableDict_Dataset (line 80)
  | buildSampler         -- DistributedSampler (line 81)
  | buildDataloader      -- DataLoader (line 82)
  | buildModel           -- eval(configs[model])(**model_args) (line 89)
  | loadCkpt             -- load_checkpoint (line 92)
  | getProjection        -- get_projection / add_module (lines 100-101)
  | cudaMove             -- model.cuda() (line 107)
  | ddpWrap              -- DistributedDataParallel (line 108)
  | buildCriterion       -- getattr(torch.nn, loss) (line 111)
  | buildOptimizer       -- getattr(torch.optim, optimizer) (line 117)
  | buildScheduler       -- eval(configs[scheduler]) (line 127)
  | buildMarginScheduler -- MarginScheduler (line 133)
  | saveConfigFile       -- open/yaml.dump/write (lines 139-142)
  | setEpoch             -- train_sampler.set_epoch (line 154)
  | runEpochCall         -- runepoch (line 156)
  | saveCkptCall         -- save_checkpoint (line 160)
  | symlinkCall          -- os.symlink (line 163)
  deriving DecidableEq, Repr

/-- Observable events of a run of train.py. -/
inductive Ev
  | call (s : CallSite)                     -- an opaque external call
  | readEnv (name : String) (value : Nat)   -- os.environ read, parsed as int
  | setEnv (name : String) (value : String) -- os.environ write
  | makedirs (dir : String)                 -- os.makedirs attempt (line 42)
  | printMsg (m : String)                   -- print (line 44)
  | barrier                                 -- dist.barrier
  | loadInit (path : String)                -- load_checkpoint(model, model_init)
  | addProjection (numClass : Nat)          -- projection head with its class count
  | saveConfig (path : String)              -- saved config copy
  | runEpoch (epoch : Nat)                  -- runepoch for a given epoch
  | saveCkpt (epoch : Nat) (path : String)  -- save_checkpoint for a given epoch
  | symlink (target : String) (link : String) -- os.symlink(target, link)
  deriving DecidableEq, Repr

/-- How a run ends abnormally: a sys exit (from exit(1)), an exception
propagating from an external call site, or a Python arithmetic error. -/
inductive Halt
  | exited (code : Nat)
  | raised (s : CallSite)
  | zeroDivisionError
  | indexError
  deriving DecidableEq, Repr

/-- What the outside world feeds the script: environment variables, whether
the model directory already exists (making os.makedirs raise), the contents
of the label file, and which external call sites raise. -/
structure World where
  envLocalRank : Nat
  envWorldSize : Nat
  dirExists : Bool
  labelList : List (String × String)   -- (utt, spk) pairs of train_label
  extFail : CallSite → Bool

/-- Trace monad: a computation produces the list of events it performed and
either a value or a halt.  Sequencing concatenates traces and stops at the
first halt, exactly like sequential Python execution. -/
def Eff (α : Type) : Type := List Ev × Except Halt α

/-- Sequencing: concatenate the traces, stop at the first halt. -/
def Eff.bind {α β : Type} (x : Eff α) (f : α → Eff β) : Eff β :=
  match x.2 with
  | Except.ok a => ((x.1 ++ (f a).1 : List Ev), (f a).2)
  | Except.error h => (x.1, Except.error h)

instance : Monad Eff where
  pure a := ([], Except.ok a)
  bind := Eff.bind

/-- Record one event unconditionally. -/
def emit (e : Ev) : Eff Unit := ([e], Except.ok ())

/-- Stop the run with the given halt. -/
def haltWith {α : Type} (h : Halt) : Eff α := ([], Except.error h)

/-- An opaque external call at site s, recorded as event e; it raises
(and the exception propagates, since train.py has no handler for it)
exactly when the world says the site fails. -/
def extCall (w : World) (s : CallSite) (e : Ev) : Eff Unit :=
  ([e], if w.extFail s then Except.error (Halt.raised s) else Except.ok ())

/-- The configuration keys of train.py that influence its control flow or
the file names it writes.  Keys that are only forwarded as payloads of
opaque external calls (model_args, loss, optimizer, scheduler names, ...)
are not represented. -/
structure Cfg where
  exp_dir : String
  gpus : List Nat
  model_init : Option String
  speed_perturb : Bool        -- dataset_args.speed_perturb
  aug_prob : ℚ                -- dataset_args.aug_prob (Python float, idealised)
  num_avg : Nat
  num_epochs : Nat            -- train_configs.num_epochs as configured
  save_epoch_interval : Nat   -- train_configs.save_epoch_interval

/-- os.path.join(configs[exp_dir], "models") (line 39). -/
def modelDir (cfg : Cfg) : String := cfg.exp_dir ++ "/models"

/-- os.path.join(model_dir, model_{epoch}.pt) (line 160). -/
def ckptPath (cfg : Cfg) (epoch : Nat) : String :=
  modelDir cfg ++ "/model_" ++ toString epoch ++ ".pt"

/-- Python int() applied to a rational: truncation toward zero. -/
def pyIntOfRat (q : ℚ) : Int := q.num.tdiv (q.den : Int)

/-- Line 123: int(train_configs[num_epochs] / (1.0 - dataset_args[aug_prob])),
the effective number of epochs that overwrites train_configs[num_epochs].
The quotient num_epochs / (1 - aug_prob) is the rational with numerator
num_epochs * aug_prob.den and denominator aug_prob.den - aug_prob.num (an
unnormalised representation of the same number), and Int.tdiv computes the
Python int() truncation toward zero on any such representation; the
theorem effNumEpochs_eq_pyInt below identifies this with the direct
pyIntOfRat form. -/
def effNumEpochs (cfg : Cfg) : Int :=
  ((cfg.num_epochs : Int) * (cfg.aug_prob.den : Int)).tdiv
    ((cfg.aug_prob.den : Int) - cfg.aug_prob.num)

/-- Modelled from the spec: the helper spk2id from wenet_speaker.utils.utils
is not included under src (only its caller train.py is); per its use at
lines 72-73 and 97 it maps every distinct speaker label of the label file
to an integer id, so the resulting dict has one entry per distinct
speaker. -/
def spk2id (utt_spk_list : List (String × String)) : List (String × Nat) :=
  ((utt_spk_list.map Prod.snd).dedup).enum.map (fun p => (p.2, p.1))

/-- The number of distinct speakers in the label file. -/
def distinctSpeakerCount (utt_spk_list : List (String × String)) : Nat :=
  ((utt_spk_list.map Prod.snd).dedup).length

/-- Lines 97-99: projection num_class = len(spk2id_dict), multiplied by 3
when speed_perturb is set. -/
def numClass (cfg : Cfg) (w : World) : Nat :=
  if cfg.speed_perturb then (spk2id w.labelList).length * 3
  else (spk2id w.labelList).length

/-- Line 159: epoch % save_epoch_interval == 0 or
epoch >= num_epochs - num_avg (with the effective num_epochs). -/
def saveFlag (cfg : Cfg) (numEpochs epoch : Nat) : Bool :=
  (epoch % cfg.save_epoch_interval == 0)
    || decide ((epoch : Int) ≥ (numEpochs : Int) - (cfg.num_avg : Int))

/-- Lines 153-160: the epoch loop.  Per epoch: set_epoch, runepoch, and on
rank 0 the checkpoint-save decision (whose modulo raises ZeroDivisionError
when save_epoch_interval is 0, as in Python). -/
def epochLoop (w : World) (cfg : Cfg) (rank numEpochs : Nat) : List Nat → Eff Unit
  | [] => pure ()
  | epoch :: rest => do
      extCall w CallSite.setEpoch (Ev.call CallSite.setEpoch)
      extCall w CallSite.runEpochCall (Ev.runEpoch epoch)
      if rank = 0 then
        if cfg.save_epoch_interval = 0 then haltWith Halt.zeroDivisionError
        else
          if saveFlag cfg numEpochs epoch then
            extCall w CallSite.saveCkptCall (Ev.saveCkpt epoch (ckptPath cfg epoch))
          else pure ()
      else pure ()
      epochLoop w cfg rank numEpochs rest

/-- Lines 30-117 of train.py: config parse, env reads, process-group init,
rank-0 model-dir creation with the exit-on-exists handler, first barrier,
logger, seed, scp reads, dataset, sampler, dataloader, model, the
model_init branch, cuda, DDP, criterion, optimizer. -/
def phase1 (cfg : Cfg) (w : World) : Eff Unit := do
  extCall w CallSite.parseConfig (Ev.call CallSite.parseConfig)
  let rank := w.envLocalRank
  emit (Ev.readEnv "LOCAL_RANK" rank)
  emit (Ev.readEnv "WORLD_SIZE" w.envWorldSize)
  match cfg.gpus[rank]? with
  | none => haltWith Halt.indexError   -- configs[gpus][rank] out of range
  | some gpu => do
    emit (Ev.setEnv "CUDA_VISIBLE_DEVICES" (toString gpu))
    extCall w CallSite.initProcessGroup (Ev.call CallSite.initProcessGroup)
    if rank = 0 then do
      emit (Ev.makedirs (modelDir cfg))
      if w.dirExists then do
        emit (Ev.printMsg (modelDir cfg ++ " already exists !!!"))
        haltWith (Halt.exited 1)
      else pure ()
    else pure ()
    extCall w CallSite.barrierCall Ev.barrier
    extCall w CallSite.genLogger (Ev.call CallSite.genLogger)
    extCall w CallSite.setSeed (Ev.call CallSite.setSeed)
    extCall w CallSite.readScpWav (Ev.call CallSite.readScpWav)
    extCall w CallSite.readScpLabel (Ev.call CallSite.readScpLabel)
    extCall w CallSite.buildDataset (Ev.call CallSite.buildDataset)
    extCall w CallSite.buildSampler (Ev.call CallSite.buildSampler)
    extCall w CallSite.buildDataloader (Ev.call CallSite.buildDataloader)
    extCall w CallSite.buildModel (Ev.call CallSite.buildModel)
    (match cfg.model_init with
     | some p => extCall w CallSite.loadCkpt (Ev.loadInit p)
     | none => extCall w CallSite.getProjection (Ev.addProjection (numClass cfg w)))
    extCall w CallSite.cudaMove (Ev.call CallSite.cudaMove)
    extCall w CallSite.ddpWrap (Ev.call CallSite.ddpWrap)
    extCall w CallSite.buildCriterion (Ev.call CallSite.buildCriterion)
    extCall w CallSite.buildOptimizer (Ev.call CallSite.buildOptimizer)

/-- Lines 122-163 of train.py: the effective epoch count (whose division
raises ZeroDivisionError when aug_prob is 1.0), scheduler, margin
scheduler, rank-0 config save, the two barriers around the start of
training, the epoch loop, and the rank-0 final symlink. -/
def phase2 (cfg : Cfg) (w : World) : Eff Unit := do
  let rank := w.envLocalRank
  if cfg.aug_prob = 1 then haltWith Halt.zeroDivisionError
  else do
    let numEpochs := (effNumEpochs cfg).toNat
    extCall w CallSite.buildScheduler (Ev.call CallSite.buildScheduler)
    extCall w CallSite.buildMarginScheduler (Ev.call CallSite.buildMarginScheduler)
    if rank = 0 then
      extCall w CallSite.saveConfigFile (Ev.saveConfig (cfg.exp_dir ++ "/config.yaml"))
    else pure ()
    extCall w CallSite.barrierCall Ev.barrier
    extCall w CallSite.barrierCall Ev.barrier
    epochLoop w cfg rank numEpochs (List.range' 1 numEpochs)
    if rank = 0 then
      extCall w CallSite.symlinkCall
        (Ev.symlink ("model_" ++ toString numEpochs ++ ".pt")
          (modelDir cfg ++ "/final_model.pt"))
    else pure ()

/-- The whole of train.py. -/
def train (cfg : Cfg) (w : World) : Eff Unit := do
  phase1 cfg w
  phase2 cfg w

/-- The trace the epoch loop produces on a failure-free run with a nonzero
save_epoch_interval: per epoch a set_epoch call, a runepoch call, and on
rank 0 the checkpoint save when the save condition holds. -/
def loopTrace (cfg : Cfg) (rank numEpochs : Nat) : List Nat → List Ev
  | [] => []
  | epoch :: rest =>
      Ev.call CallSite.setEpoch :: Ev.runEpoch epoch ::
        ((if rank = 0 then
            (if saveFlag cfg numEpochs epoch then
              [Ev.saveCkpt epoch (ckptPath cfg epoch)]
            else [])
          else [])
          ++ loopTrace cfg rank numEpochs rest)

/-- Events of phase 1 before its barrier: startup, env reads, process-group
init, and the rank-0 directory creation. -/
def preBarrierTrace (cfg : Cfg) (w : World) (gpu : Nat) : List Ev :=
  [Ev.call CallSite.parseConfig,
   Ev.readEnv "LOCAL_RANK" w.envLocalRank,
   Ev.readEnv "WORLD_SIZE" w.envWorldSize,
   Ev.setEnv "CUDA_VISIBLE_DEVICES" (toString gpu),
   Ev.call CallSite.initProcessGroup]
  ++ (if w.envLocalRank = 0 then [Ev.makedirs (modelDir cfg)] else [])

/-- Events of phase 1 after its barrier: logger, seed, scp reads, dataset,
sampler, dataloader, model, the model_init branch, cuda, DDP, criterion,
optimizer. -/
def setupTrace (cfg : Cfg) (w : World) : List Ev :=
  [Ev.call CallSite.genLogger, Ev.call CallSite.setSeed,
   Ev.call CallSite.readScpWav, Ev.call CallSite.readScpLabel,
   Ev.call CallSite.buildDataset, Ev.call CallSite.buildSampler,
   Ev.call CallSite.buildDataloader, Ev.call CallSite.buildModel]
  ++ (match cfg.model_init with
      | some p => [Ev.loadInit p]
      | none => [Ev.addProjection (numClass cfg w)])
  ++ [Ev.call CallSite.cudaMove, Ev.call CallSite.ddpWrap,
      Ev.call CallSite.buildCriterion, Ev.call CallSite.buildOptimizer]

/-- Events of phase 2 before its two barriers: scheduler, margin scheduler,
and the rank-0 config save. -/
def schedTrace (cfg : Cfg) (w : World) : List Ev :=
  [Ev.call CallSite.buildScheduler, Ev.call CallSite.buildMarginScheduler]
  ++ (if w.envLocalRank = 0
      then [Ev.saveConfig (cfg.exp_dir ++ "/config.yaml")] else [])

/-- The rank-0 final symlink event. -/
def tailTrace (cfg : Cfg) (w : World) : List Ev :=
  if w.envLocalRank = 0 then
    [Ev.symlink ("model_" ++ toString (effNumEpochs cfg).toNat ++ ".pt")
      (modelDir cfg ++ "/final_model.pt")]
  else []

/-- The full trace of a failure-free run of train.py on a process of any
rank: startup, first barrier, setup, scheduling, two barriers, the epoch
loop over epochs 1 .. effNumEpochs, and the rank-0 symlink. -/
def expectedTrace (cfg : Cfg) (w : World) (gpu : Nat) : List Ev :=
  preBarrierTrace cfg w gpu ++ Ev.barrier :: (setupTrace cfg w ++ schedTrace cfg w
    ++ Ev.barrier :: Ev.barrier ::
      (loopTrace cfg w.envLocalRank (effNumEpochs cfg).toNat
        (List.range' 1 (effNumEpochs cfg).toNat)
       ++ tailTrace cfg w))

/-- The trace of a run on rank 0 when the model directory already exists:
the startup events, the failed makedirs, and the error message, after
which the process exits. -/
def exitTrace (cfg : Cfg) (w : World) (gpu : Nat) : List Ev :=
  [Ev.call CallSite.parseConfig,
   Ev.readEnv "LOCAL_RANK" w.envLocalRank,
   Ev.readEnv "WORLD_SIZE" w.envWorldSize,
   Ev.setEnv "CUDA_VISIBLE_DEVICES" (toString gpu),
   Ev.call CallSite.initProcessGroup,
   Ev.makedirs (modelDir cfg),
   Ev.printMsg (modelDir cfg ++ " already exists !!!")]

/-- Recognises a runepoch event. -/
def isRunEpochEv : Ev → Bool
  | Ev.runEpoch _ => true
  | _ => false

/-- Recognises a checkpoint-save event. -/
def isSaveEv : Ev → Bool
  | Ev.saveCkpt _ _ => true
  | _ => false

/-- Extract the halt of a finished computation, if any. -/
def haltOf : Except Halt Unit → Option Halt
  | Except.ok _ => none
  | Except.error h => some h

/-- Running train.py: the event trace and the final outcome (none means
normal completion). -/
def run (cfg : Cfg) (w : World) : List Ev × Option Halt :=
  ((train cfg w).1, haltOf (train cfg w).2)

/-- A concrete configuration used to instantiate the theorems: two GPUs,
training from scratch, no augmentation, three epochs, a checkpoint every
epoch. -/
def cfg0 : Cfg :=
  { exp_dir := "exp", gpus := [0, 1], model_init := none,
    speed_perturb := false, aug_prob := 0, num_avg := 2, num_epochs := 3,
    save_epoch_interval := 1 }

/-- As cfg0 but warm-started from an initial model. -/
def cfg1 : Cfg :=
  { cfg0 with model_init := some "init.pt" }

/-- As cfg0 but with zero configured epochs. -/
def cfgZ : Cfg :=
  { cfg0 with num_epochs := 0 }

/-- A concrete failure-free world on rank 0 of 2, with a fresh experiment
directory and two utterances from two distinct speakers. -/
def w0 : World :=
  { envLocalRank := 0, envWorldSize := 2, dirExists := false,
    labelList := [("utt1", "spkA"), ("utt2", "spkB")],
    extFail := fun _ => false }

/-- As w0 but on rank 1. -/
def w1 : World :=
  { w0 with envLocalRank := 1 }

/-- As w0 but the model directory already exists. -/
def wDir : World :=
  { w0 with dirExists := true }

/-- As w0 but exactly the given external call site raises. -/
def wFail (s : CallSite) : World :=
  { w0 with extFail := fun s2 => decide (s2 = s) }

theorem bind_eq {α β : Type} (x : Eff α) (f : α → Eff β) :
    x >>= f = Eff.bind x f := rfl

theorem bind_ok {α β : Type} (t : List Ev) (a : α) (f : α → Eff β) :
    Eff.bind ((t, Except.ok a) : Eff α) f = (t ++ (f a).1, (f a).2) := rfl

theorem bind_err {α β : Type} (t : List Ev) (h : Halt) (f : α → Eff β) :
    Eff.bind ((t, Except.error h) : Eff α) f = (t, Except.error h) := rfl

theorem pure_eq {α : Type} (a : α) : (pure a : Eff α) = ([], Except.ok a) := rfl

theorem extCall_ok {w : World} {s : CallSite} (e : Ev) (h : w.extFail s = false) :
    extCall w s e = ([e], Except.ok ()) := by
  simp [extCall, h]

/-- On a failure-free world with a nonzero save interval, the epoch loop
finishes and produces exactly loopTrace. -/
theorem epochLoop_eq (w : World) (cfg : Cfg) (rank numEpochs : Nat)
    (hf : ∀ s, w.extFail s = false) (hi : cfg.save_epoch_interval ≠ 0) :
    ∀ es : List Nat,
      epochLoop w cfg rank numEpochs es = (loopTrace cfg rank numEpochs es, Except.ok ()) := by
  intro es
  induction es with
  | nil => rfl
  | cons epoch rest ih =>
      by_cases hr : rank = 0
      · subst hr
        by_cases hs : saveFlag cfg numEpochs epoch <;>
          simp [epochLoop, loopTrace, bind_eq, extCall_ok _ (hf _), bind_ok, ih,
            hs, hi, pure_eq]
      · simp [epochLoop, loopTrace, bind_eq, extCall_ok _ (hf _), bind_ok, ih,
          hr, pure_eq]

/-- On a failure-free world with a fresh model directory and an in-range
rank, phase 1 finishes and produces the startup, barrier and setup
events. -/
theorem phase1_ok (cfg : Cfg) (w : World) (gpu : Nat)
    (hf : ∀ s, w.extFail s = false) (hd : w.dirExists = false)
    (hg : cfg.gpus[w.envLocalRank]? = some gpu) :
    phase1 cfg w =
      (preBarrierTrace cfg w gpu ++ Ev.barrier :: setupTrace cfg w, Except.ok ()) := by
  by_cases hr : w.envLocalRank = 0
  · rw [hr] at hg
    cases hm : cfg.model_init <;>
      simp [phase1, preBarrierTrace, setupTrace, bind_eq, extCall_ok _ (hf _),
        bind_ok, emit, hg, hr, hd, hm, pure_eq]
  · cases hm : cfg.model_init <;>
      simp [phase1, preBarrierTrace, setupTrace, bind_eq, extCall_ok _ (hf _),
        bind_ok, emit, hg, hr, hd, hm, pure_eq]

/-- On rank 0 with the model directory already existing, phase 1 stops
right after printing the error message, with exit code 1. -/
theorem phase1_exit (cfg : Cfg) (w : World) (gpu : Nat)
    (hf : ∀ s, w.extFail s = false) (hr : w.envLocalRank = 0)
    (hd : w.dirExists = true) (hg : cfg.gpus[w.envLocalRank]? = some gpu) :
    phase1 cfg w = (exitTrace cfg w gpu, Except.error (Halt.exited 1)) := by
  rw [hr] at hg
  simp [phase1, exitTrace, bind_eq, extCall_ok _ (hf _), bind_ok, bind_err,
    emit, haltWith, hg, hr, hd, pure_eq]

/-- On a failure-free world with aug_prob other than 1 and a nonzero save
interval, phase 2 finishes and produces the scheduling events, the two
barriers, the loop trace and the rank-0 symlink. -/
theorem phase2_ok (cfg : Cfg) (w : World)
    (hf : ∀ s, w.extFail s = false) (ha : cfg.aug_prob ≠ 1)
    (hi : cfg.save_epoch_interval ≠ 0) :
    phase2 cfg w =
      (schedTrace cfg w ++ Ev.barrier :: Ev.barrier ::
        (loopTrace cfg w.envLocalRank (effNumEpochs cfg).toNat
          (List.range' 1 (effNumEpochs cfg).toNat) ++ tailTrace cfg w),
       Except.ok ()) := by
  by_cases hr : w.envLocalRank = 0 <;>
    simp [phase2, schedTrace, tailTrace, bind_eq, extCall_ok _ (hf _), bind_ok,
      epochLoop_eq w cfg _ _ hf hi, ha, hr, pure_eq]

/-- A failure-free run of train.py finishes normally and produces exactly
the expected trace. -/
theorem train_eq (cfg : Cfg) (w : World) (gpu : Nat)
    (hf : ∀ s, w.extFail s = false) (hd : w.dirExists = false)
    (hg : cfg.gpus[w.envLocalRank]? = some gpu) (ha : cfg.aug_prob ≠ 1)
    (hi : cfg.save_epoch_interval ≠ 0) :
    train cfg w = (expectedTrace cfg w gpu, Except.ok ()) := by
  simp [train, bind_eq, phase1_ok cfg w gpu hf hd hg, bind_ok,
    phase2_ok cfg w hf ha hi, expectedTrace]

/-- run version of train_eq. -/
theorem run_eq (cfg : Cfg) (w : World) (gpu : Nat)
    (hf : ∀ s, w.extFail s = false) (hd : w.dirExists = false)
    (hg : cfg.gpus[w.envLocalRank]? = some gpu) (ha : cfg.aug_prob ≠ 1)
    (hi : cfg.save_epoch_interval ≠ 0) :
    run cfg w = (expectedTrace cfg w gpu, none) := by
  simp [run, train_eq cfg w gpu hf hd hg ha hi, haltOf]

/-- The epoch loop saves the checkpoint of epoch e at path p exactly when
the process is rank 0, e is one of the looped epochs, the save condition
holds for e, and p is the model_e.pt path. -/
theorem mem_loopTrace_saveCkpt (cfg : Cfg) (rank numEpochs e : Nat) (p : String) :
    ∀ es : List Nat,
      (Ev.saveCkpt e p ∈ loopTrace cfg rank numEpochs es ↔
        (rank = 0 ∧ e ∈ es ∧ saveFlag cfg numEpochs e = true ∧ p = ckptPath cfg e)) := by
  intro es
  induction es with
  | nil => simp [loopTrace]
  | cons epoch rest ih =>
      by_cases hr : rank = 0
      · subst hr
        by_cases hs : saveFlag cfg numEpochs epoch = true
        · simp only [loopTrace, List.mem_cons, List.mem_append, ih]
          aesop
        · simp only [loopTrace, List.mem_cons, List.mem_append, ih]
          aesop
      · simp [loopTrace, hr, ih]

/-- The epoch loop performs no barrier. -/
theorem barrier_not_mem_loopTrace (cfg : Cfg) (rank numEpochs : Nat) :
    ∀ es : List Nat, Ev.barrier ∉ loopTrace cfg rank numEpochs es := by
  intro es
  induction es with
  | nil => simp [loopTrace]
  | cons epoch rest ih =>
      by_cases hr : rank = 0
      · subst hr
        by_cases hs : saveFlag cfg numEpochs epoch = true <;>
          simp [loopTrace, hs, ih]
      · simp [loopTrace, hr, ih]

/-- The epoch loop creates no symlink. -/
theorem symlink_not_mem_loopTrace (cfg : Cfg) (rank numEpochs : Nat) (a b : String) :
    ∀ es : List Nat, Ev.symlink a b ∉ loopTrace cfg rank numEpochs es := by
  intro es
  induction es with
  | nil => simp [loopTrace]
  | cons epoch rest ih =>
      by_cases hr : rank = 0
      · subst hr
        by_cases hs : saveFlag cfg numEpochs epoch = true <;>
          simp [loopTrace, hs, ih]
      · simp [loopTrace, hr, ih]

/-- The epoch loop adds no projection head. -/
theorem addProjection_not_mem_loopTrace (cfg : Cfg) (rank numEpochs n : Nat) :
    ∀ es : List Nat, Ev.addProjection n ∉ loopTrace cfg rank numEpochs es := by
  intro es
  induction es with
  | nil => simp [loopTrace]
  | cons epoch rest ih =>
      by_cases hr : rank = 0
      · subst hr
        by_cases hs : saveFlag cfg numEpochs epoch = true <;>
          simp [loopTrace, hs, ih]
      · simp [loopTrace, hr, ih]

/-- The epoch loop invokes the executor once per looped epoch. -/
theorem countP_loopTrace (cfg : Cfg) (rank numEpochs : Nat) :
    ∀ es : List Nat, (loopTrace cfg rank numEpochs es).countP isRunEpochEv = es.length := by
  intro es
  induction es with
  | nil => simp [loopTrace]
  | cons epoch rest ih =>
      by_cases hr : rank = 0
      · subst hr
        by_cases hs : saveFlag cfg numEpochs epoch = true <;>
          simp [loopTrace, hs, ih, List.countP_cons, List.countP_append, isRunEpochEv]
      · simp [loopTrace, hr, ih, List.countP_cons, isRunEpochEv]

/-- The save condition spelled out: divisibility by the save interval, or
epoch at least num_epochs minus num_avg (an integer comparison, as in
Python). -/
theorem saveFlag_iff (cfg : Cfg) (numEpochs epoch : Nat) :
    saveFlag cfg numEpochs epoch = true ↔
      (epoch % cfg.save_epoch_interval = 0 ∨
        (epoch : Int) ≥ (numEpochs : Int) - (cfg.num_avg : Int)) := by
  simp [saveFlag]

/-- The spk2id dict has one entry per distinct speaker of the label file. -/
theorem spk2id_length (l : List (String × String)) :
    (spk2id l).length = distinctSpeakerCount l := by
  simp [spk2id, distinctSpeakerCount, List.enum_length]

/-- For an augmentation probability below 1 the effective epoch count is
nonnegative. -/
theorem effNumEpochs_nonneg (cfg : Cfg)
    (h1 : cfg.aug_prob < 1) : 0 ≤ effNumEpochs cfg := by
  have hnum : cfg.aug_prob.num < (cfg.aug_prob.den : Int) :=
    Rat.lt_one_iff_num_lt_denom.mp h1
  exact Int.tdiv_nonneg (by positivity) (by omega)

/-- With aug_prob 0 the effective epoch count equals the configured one. -/
theorem effNumEpochs_zero (cfg : Cfg) (h : cfg.aug_prob = 0) :
    effNumEpochs cfg = (cfg.num_epochs : Int) := by
  simp [effNumEpochs, h, Int.tdiv_one]

/-- Python int() truncation agrees with the floor on nonnegative
rationals. -/
theorem pyIntOfRat_eq_floor (q : ℚ) (h : 0 ≤ q) : pyIntOfRat q = ⌊q⌋ := by
  unfold pyIntOfRat
  rw [Int.tdiv_eq_ediv (Rat.num_nonneg.mpr h) (Int.natCast_nonneg _),
    Rat.floor_def]

/-- For an augmentation probability in [0, 1), effNumEpochs is exactly
Python int() applied to num_epochs / (1 - aug_prob). -/
theorem effNumEpochs_eq_pyInt (cfg : Cfg) (h0 : 0 ≤ cfg.aug_prob)
    (h1 : cfg.aug_prob < 1) :
    effNumEpochs cfg = pyIntOfRat ((cfg.num_epochs : ℚ) / (1 - cfg.aug_prob)) := by
  have hnum : cfg.aug_prob.num < (cfg.aug_prob.den : Int) :=
    Rat.lt_one_iff_num_lt_denom.mp h1
  have hnum0 : 0 ≤ cfg.aug_prob.num := Rat.num_nonneg.mpr h0
  have hb : (0 : Int) < (cfg.aug_prob.den : Int) - cfg.aug_prob.num := by omega
  have hdenq : ((cfg.aug_prob.den : ℚ)) ≠ 0 := by
    exact_mod_cast cfg.aug_prob.den_nz
  have hbq : ((cfg.aug_prob.den : ℚ)) - (cfg.aug_prob.num : ℚ) ≠ 0 := by
    have : (0 : ℚ) < (cfg.aug_prob.den : ℚ) - (cfg.aug_prob.num : ℚ) := by
      exact_mod_cast hb
    linarith
  have hpd : cfg.aug_prob * (cfg.aug_prob.den : ℚ) = (cfg.aug_prob.num : ℚ) :=
    Rat.mul_den_eq_num cfg.aug_prob
  have h1pne : (1 : ℚ) - cfg.aug_prob ≠ 0 := by
    intro hc
    exact absurd (by linarith : cfg.aug_prob = 1) (ne_of_lt h1)
  have hq : (cfg.num_epochs : ℚ) / (1 - cfg.aug_prob) =
      (((cfg.num_epochs : Int) * (cfg.aug_prob.den : Int) : Int) : ℚ) /
        ((((cfg.aug_prob.den : Int) - cfg.aug_prob.num : Int)) : ℚ) := by
    rw [div_eq_div_iff h1pne (by push_cast; exact_mod_cast hbq)]
    push_cast
    linear_combination (cfg.num_epochs : ℚ) * hpd
  have hqnn : (0 : ℚ) ≤ (cfg.num_epochs : ℚ) / (1 - cfg.aug_prob) :=
    div_nonneg (by positivity) (by linarith)
  rw [pyIntOfRat_eq_floor _ hqnn, hq]
  have htn : ((cfg.aug_prob.den : Int) - cfg.aug_prob.num) =
      ((((cfg.aug_prob.den : Int) - cfg.aug_prob.num).toNat : ℕ) : Int) :=
    (Int.toNat_of_nonneg (le_of_lt hb)).symm
  rw [effNumEpochs, Int.tdiv_eq_ediv (by positivity) (le_of_lt hb), htn,
    ← Rat.floor_intCast_div_natCast]
  congr 2

theorem bind_fst {α β : Type} (x : Eff α) (f : α → Eff β) :
    (Eff.bind x f).1 =
      x.1 ++ (match x.2 with
              | Except.ok a => (f a).1
              | Except.error _ => ([] : List Ev)) := by
  obtain ⟨t, r⟩ := x
  cases r <;> simp [Eff.bind]

theorem bind_snd {α β : Type} (x : Eff α) (f : α → Eff β) :
    (Eff.bind x f).2 =
      (match x.2 with
       | Except.ok a => (f a).2
       | Except.error h => (Except.error h : Except Halt β)) := by
  obtain ⟨t, r⟩ := x
  cases r <;> simp [Eff.bind]

/-- Claim C1: if the model directory already exists when training starts,
the (rank 0) process that attempts os.makedirs catches the IOError, prints
an error message naming the directory, and exits immediately with exit
code 1: its trace ends at the print event and its outcome is exit code
1. -/
theorem claim_C1 (cfg : Cfg) (w : World) (gpu : Nat)
    (hf : ∀ s, w.extFail s = false) (hr : w.envLocalRank = 0)
    (hd : w.dirExists = true) (hg : cfg.gpus[w.envLocalRank]? = some gpu) :
    run cfg w = (exitTrace cfg w gpu, some (Halt.exited 1)) := by
  simp [run, train, bind_eq, phase1_exit cfg w gpu hf hr hd hg, bind_err, haltOf]

/-- Witness for C1 at a concrete configuration and world. -/
theorem claim_C1_witness :
    run cfg0 wDir = (exitTrace cfg0 wDir 0, some (Halt.exited 1)) :=
  claim_C1 cfg0 wDir 0 (fun _ => rfl) rfl rfl rfl

/-- Claim C5: on startup every process reads LOCAL_RANK and then WORLD_SIZE
from the environment (their integer values become the rank and world size)
before anything else, in particular before initializing the process group:
the trace of any run begins with the config parse and the two environment
reads. -/
theorem claim_C5 (cfg : Cfg) (w : World)
    (hp : w.extFail CallSite.parseConfig = false) :
    ∃ rest, (run cfg w).1 =
      Ev.call CallSite.parseConfig :: Ev.readEnv "LOCAL_RANK" w.envLocalRank ::
        Ev.readEnv "WORLD_SIZE" w.envWorldSize :: rest := by
  simp only [run, train, phase1, bind_eq, bind_fst, bind_snd,
    extCall_ok _ hp, emit, List.cons_append, List.singleton_append,
    List.nil_append, List.append_assoc]
  exact ⟨_, rfl⟩

/-- Witness for C5 at a concrete configuration and world. -/
theorem claim_C5_witness :
    ∃ rest, (run cfg0 w0).1 =
      Ev.call CallSite.parseConfig :: Ev.readEnv "LOCAL_RANK" 0 ::
        Ev.readEnv "WORLD_SIZE" 2 :: rest :=
  claim_C5 cfg0 w0 rfl

/-- Claim C6: a failure-free run performs exactly, and in this order, the
config load, the process-group initialization, dataset/sampler/dataloader
construction, model, criterion, optimizer, scheduler and margin-scheduler
construction, and then the epoch loop calling the executor once for each
epoch 1 .. effective num_epochs with the rank-gated checkpoint save right
after each executor call: its trace equals expectedTrace. -/
theorem claim_C6 (cfg : Cfg) (w : World) (gpu : Nat)
    (hf : ∀ s, w.extFail s = false) (hd : w.dirExists = false)
    (hg : cfg.gpus[w.envLocalRank]? = some gpu) (ha : cfg.aug_prob ≠ 1)
    (hi : cfg.save_epoch_interval ≠ 0) :
    run cfg w = (expectedTrace cfg w gpu, none) :=
  run_eq cfg w gpu hf hd hg ha hi

/-- Witness for C6 at a concrete configuration and world. -/
theorem claim_C6_witness : run cfg0 w0 = (expectedTrace cfg0 w0 0, none) :=
  claim_C6 cfg0 w0 0 (fun _ => rfl) rfl rfl (by decide) (by decide)

/-- Claim C7: train.py installs no exception handler besides the
directory-exists one: a failure raised at any external call site of a
canonical run (dataset construction, model construction, the per-epoch
executor, the checkpoint save, ...) propagates out of train uncaught, the
outcome being exactly that raised exception. -/
theorem claim_C7 :
    (∀ s : CallSite, s ≠ CallSite.loadCkpt →
      (run cfg0 (wFail s)).2 = some (Halt.raised s)) ∧
    (run cfg1 (wFail CallSite.loadCkpt)).2 =
      some (Halt.raised CallSite.loadCkpt) := by
  constructor
  · intro s hs
    cases s
    all_goals first
    | exact absurd rfl hs
    | decide
  · decide

/-- Witness for C7 at the dataset-construction call site. -/
theorem claim_C7_witness :
    (run cfg0 (wFail CallSite.buildDataset)).2 =
      some (Halt.raised CallSite.buildDataset) :=
  claim_C7.1 CallSite.buildDataset (by decide)

/-- The projection class count of the code equals the distinct-speaker
count of the label file, tripled exactly when speed_perturb is set. -/
theorem numClass_eq (cfg : Cfg) (w : World) :
    numClass cfg w =
      (if cfg.speed_perturb then distinctSpeakerCount w.labelList * 3
       else distinctSpeakerCount w.labelList) := by
  by_cases sp : cfg.speed_perturb <;> simp [numClass, spk2id_length, sp]

/-- The expected trace calls the executor once per effective epoch. -/
theorem countP_expectedTrace (cfg : Cfg) (w : World) (gpu : Nat) :
    (expectedTrace cfg w gpu).countP isRunEpochEv = (effNumEpochs cfg).toNat := by
  by_cases hr : w.envLocalRank = 0 <;>
    cases hm : cfg.model_init <;>
      simp [expectedTrace, preBarrierTrace, setupTrace, schedTrace, tailTrace,
        hr, hm, List.countP_append, List.countP_cons, isRunEpochEv,
        countP_loopTrace, List.length_range']

/-- Claim C2: every process, whatever its rank, passes exactly three
barriers, at the fixed points: one right after the rank-0 model-directory
creation, and two around the start of training with the rank-0 config save
right before them; every executor call of the epoch loop happens only
after all three barriers. -/
theorem claim_C2 (cfg : Cfg) (w : World) (gpu : Nat)
    (hf : ∀ s, w.extFail s = false) (hd : w.dirExists = false)
    (hg : cfg.gpus[w.envLocalRank]? = some gpu) (ha : cfg.aug_prob ≠ 1)
    (hi : cfg.save_epoch_interval ≠ 0) :
    ∃ t1 t2 t4,
      (run cfg w).1 = t1 ++ Ev.barrier :: (t2 ++ Ev.barrier :: Ev.barrier :: t4) ∧
      Ev.barrier ∉ t1 ∧ Ev.barrier ∉ t2 ∧ Ev.barrier ∉ t4 ∧
      (∀ n, Ev.runEpoch n ∉ t1) ∧ (∀ n, Ev.runEpoch n ∉ t2) ∧
      (w.envLocalRank = 0 →
        t1.getLast? = some (Ev.makedirs (modelDir cfg)) ∧
        t2.getLast? = some (Ev.saveConfig (cfg.exp_dir ++ "/config.yaml"))) := by
  refine ⟨preBarrierTrace cfg w gpu, setupTrace cfg w ++ schedTrace cfg w,
    loopTrace cfg w.envLocalRank (effNumEpochs cfg).toNat
        (List.range' 1 (effNumEpochs cfg).toNat) ++ tailTrace cfg w,
    ?_, ?_, ?_, ?_, ?_, ?_, ?_⟩
  · rw [run_eq cfg w gpu hf hd hg ha hi]
    simp [expectedTrace, List.append_assoc]
  · by_cases hr : w.envLocalRank = 0 <;> simp [preBarrierTrace, hr]
  · cases hm : cfg.model_init <;> by_cases hr : w.envLocalRank = 0 <;>
      simp [setupTrace, schedTrace, hm, hr]
  · by_cases hr : w.envLocalRank = 0 <;>
      simp [tailTrace, hr, List.mem_append, barrier_not_mem_loopTrace]
  · intro n
    by_cases hr : w.envLocalRank = 0 <;> simp [preBarrierTrace, hr]
  · intro n
    cases hm : cfg.model_init <;> by_cases hr : w.envLocalRank = 0 <;>
      simp [setupTrace, schedTrace, hm, hr]
  · intro hr
    constructor
    · simp [preBarrierTrace, hr, List.getLast?_concat]
    · cases hm : cfg.model_init <;>
        simp [setupTrace, schedTrace, hm, hr, List.append_assoc,
          List.getLast?_concat]

/-- Witness for C2 at a concrete configuration and world. -/
theorem claim_C2_witness :
    ∃ t1 t2 t4,
      (run cfg0 w0).1 = t1 ++ Ev.barrier :: (t2 ++ Ev.barrier :: Ev.barrier :: t4) ∧
      Ev.barrier ∉ t1 ∧ Ev.barrier ∉ t2 ∧ Ev.barrier ∉ t4 ∧
      (∀ n, Ev.runEpoch n ∉ t1) ∧ (∀ n, Ev.runEpoch n ∉ t2) ∧
      (w0.envLocalRank = 0 →
        t1.getLast? = some (Ev.makedirs (modelDir cfg0)) ∧
        t2.getLast? = some (Ev.saveConfig (cfg0.exp_dir ++ "/config.yaml"))) :=
  claim_C2 cfg0 w0 0 (fun _ => rfl) rfl rfl (by decide) (by decide)

/-- Claim C3: in a failure-free run, the checkpoint model_e.pt of an epoch
e of the loop is saved exactly when the process has rank 0 and e is
divisible by save_epoch_interval or e is at least the (effective)
num_epochs minus num_avg; ranks other than 0 never save. -/
theorem claim_C3 (cfg : Cfg) (w : World) (gpu : Nat)
    (hf : ∀ s, w.extFail s = false) (hd : w.dirExists = false)
    (hg : cfg.gpus[w.envLocalRank]? = some gpu) (ha : cfg.aug_prob ≠ 1)
    (hi : cfg.save_epoch_interval ≠ 0) (epoch : Nat) (h1 : 1 ≤ epoch)
    (h2 : epoch ≤ (effNumEpochs cfg).toNat) :
    (Ev.saveCkpt epoch (ckptPath cfg epoch) ∈ (run cfg w).1) ↔
      (w.envLocalRank = 0 ∧
        (epoch % cfg.save_epoch_interval = 0 ∨
          (epoch : Int) ≥ (((effNumEpochs cfg).toNat : Nat) : Int) - (cfg.num_avg : Int))) := by
  have hpre : (Ev.saveCkpt epoch (ckptPath cfg epoch) ∈ (run cfg w).1) ↔
      Ev.saveCkpt epoch (ckptPath cfg epoch) ∈
        loopTrace cfg w.envLocalRank (effNumEpochs cfg).toNat
          (List.range' 1 (effNumEpochs cfg).toNat) := by
    rw [run_eq cfg w gpu hf hd hg ha hi]
    by_cases hr : w.envLocalRank = 0 <;> cases hm : cfg.model_init <;>
      simp [expectedTrace, preBarrierTrace, setupTrace, schedTrace, tailTrace,
        hr, hm, List.mem_append, List.mem_cons]
  rw [hpre, mem_loopTrace_saveCkpt]
  simp only [saveFlag_iff, List.mem_range'_1]
  constructor
  · rintro ⟨hr, -, hflag, -⟩
    exact ⟨hr, hflag⟩
  · rintro ⟨hr, hflag⟩
    exact ⟨hr, ⟨h1, by omega⟩, hflag, trivial⟩

/-- Witness for C3 at a concrete configuration, world and epoch. -/
theorem claim_C3_witness :
    (Ev.saveCkpt 3 (ckptPath cfg0 3) ∈ (run cfg0 w0).1) ↔
      (w0.envLocalRank = 0 ∧
        (3 % cfg0.save_epoch_interval = 0 ∨
          ((3 : Nat) : Int) ≥ (((effNumEpochs cfg0).toNat : Nat) : Int) - (cfg0.num_avg : Int))) :=
  claim_C3 cfg0 w0 0 (fun _ => rfl) rfl rfl (by decide) (by decide) 3
    (by decide) (by decide)

/-- Claim C4: after the epoch loop, rank 0 creates the final_model.pt
symlink in the model directory pointing at the last checkpoint
model_(num_epochs).pt, as the very last action of the run; processes of
any other rank never create a symlink. -/
theorem claim_C4 (cfg : Cfg) (w : World) (gpu : Nat)
    (hf : ∀ s, w.extFail s = false) (hd : w.dirExists = false)
    (hg : cfg.gpus[w.envLocalRank]? = some gpu) (ha : cfg.aug_prob ≠ 1)
    (hi : cfg.save_epoch_interval ≠ 0) :
    (w.envLocalRank = 0 →
      ∃ t1, (run cfg w).1 =
        t1 ++ [Ev.symlink ("model_" ++ toString (effNumEpochs cfg).toNat ++ ".pt")
          (modelDir cfg ++ "/final_model.pt")]) ∧
    (w.envLocalRank ≠ 0 → ∀ a b, Ev.symlink a b ∉ (run cfg w).1) := by
  rw [run_eq cfg w gpu hf hd hg ha hi]
  constructor
  · intro hr
    refine ⟨preBarrierTrace cfg w gpu ++ Ev.barrier :: (setupTrace cfg w
      ++ schedTrace cfg w ++ Ev.barrier :: Ev.barrier ::
        loopTrace cfg w.envLocalRank (effNumEpochs cfg).toNat
          (List.range' 1 (effNumEpochs cfg).toNat)), ?_⟩
    simp [expectedTrace, tailTrace, hr, List.append_assoc]
  · intro hr a b
    cases hm : cfg.model_init <;>
      simp [expectedTrace, preBarrierTrace, setupTrace, schedTrace, tailTrace,
        hr, hm, List.mem_append, List.mem_cons, symlink_not_mem_loopTrace]

/-- Witness for C4 at a concrete configuration and world. -/
theorem claim_C4_witness :
    (w0.envLocalRank = 0 →
      ∃ t1, (run cfg0 w0).1 =
        t1 ++ [Ev.symlink ("model_" ++ toString (effNumEpochs cfg0).toNat ++ ".pt")
          (modelDir cfg0 ++ "/final_model.pt")]) ∧
    (w0.envLocalRank ≠ 0 → ∀ a b, Ev.symlink a b ∉ (run cfg0 w0).1) :=
  claim_C4 cfg0 w0 0 (fun _ => rfl) rfl rfl (by decide) (by decide)

/-- Claim C8: the number of epochs actually executed is
int(num_epochs / (1.0 - aug_prob)), not the configured num_epochs: with
aug_prob 1 the division raises ZeroDivisionError, for aug_prob in [0, 1)
the executor is called exactly int(num_epochs / (1 - aug_prob)) times, and
with aug_prob 0 that count equals the configured num_epochs. -/
theorem claim_C8 (cfg : Cfg) (w : World) (gpu : Nat)
    (hf : ∀ s, w.extFail s = false) (hd : w.dirExists = false)
    (hg : cfg.gpus[w.envLocalRank]? = some gpu)
    (hi : cfg.save_epoch_interval ≠ 0) :
    (cfg.aug_prob = 1 → (run cfg w).2 = some Halt.zeroDivisionError) ∧
    (0 ≤ cfg.aug_prob → cfg.aug_prob < 1 →
      (((run cfg w).1.countP isRunEpochEv : Nat) : Int) =
        pyIntOfRat ((cfg.num_epochs : ℚ) / (1 - cfg.aug_prob))) ∧
    (cfg.aug_prob = 0 → (run cfg w).1.countP isRunEpochEv = cfg.num_epochs) := by
  refine ⟨?_, ?_, ?_⟩
  · intro ha1
    have h2 : phase2 cfg w = ([], Except.error Halt.zeroDivisionError) := by
      simp [phase2, ha1, haltWith]
    simp [run, train, bind_eq, phase1_ok cfg w gpu hf hd hg, bind_ok, h2, haltOf]
  · intro h0 h1
    rw [run_eq cfg w gpu hf hd hg (ne_of_lt h1) hi]
    rw [show (expectedTrace cfg w gpu, (none : Option Halt)).1 = expectedTrace cfg w gpu from rfl]
    rw [countP_expectedTrace, Int.toNat_of_nonneg (effNumEpochs_nonneg cfg h1)]
    exact effNumEpochs_eq_pyInt cfg h0 h1
  · intro h00
    have ha : cfg.aug_prob ≠ 1 := by
      rw [h00]
      norm_num
    rw [run_eq cfg w gpu hf hd hg ha hi]
    rw [show (expectedTrace cfg w gpu, (none : Option Halt)).1 = expectedTrace cfg w gpu from rfl]
    rw [countP_expectedTrace, effNumEpochs_zero cfg h00, Int.toNat_natCast]

/-- Witness for C8 at a concrete configuration and world. -/
theorem claim_C8_witness :
    (cfg0.aug_prob = 1 → (run cfg0 w0).2 = some Halt.zeroDivisionError) ∧
    (0 ≤ cfg0.aug_prob → cfg0.aug_prob < 1 →
      (((run cfg0 w0).1.countP isRunEpochEv : Nat) : Int) =
        pyIntOfRat ((cfg0.num_epochs : ℚ) / (1 - cfg0.aug_prob))) ∧
    (cfg0.aug_prob = 0 → (run cfg0 w0).1.countP isRunEpochEv = cfg0.num_epochs) :=
  claim_C8 cfg0 w0 0 (fun _ => rfl) rfl rfl (by decide)

/-- Claim C9 counterexample: with the configured num_epochs 0 (so an
effective epoch count of 0) a failure-free rank-0 run creates the
final_model.pt symlink pointing at model_0.pt even though no checkpoint
was ever saved, so the symlink target does not exist. -/
theorem claim_C9_counterexample :
    (run cfgZ w0).1.countP isSaveEv = 0 ∧
    Ev.symlink "model_0.pt" "exp/models/final_model.pt" ∈ (run cfgZ w0).1 := by
  constructor <;> decide

/-- Claim C9 (amended): whenever the final_model.pt symlink is created in
a failure-free run with at least one executed epoch, its target checkpoint
model_(num_epochs).pt was saved earlier in the run: the final epoch always
satisfies the save condition epoch at least num_epochs minus num_avg,
num_avg being nonnegative. -/
theorem claim_C9 (cfg : Cfg) (w : World) (gpu : Nat)
    (hf : ∀ s, w.extFail s = false) (hd : w.dirExists = false)
    (hg : cfg.gpus[w.envLocalRank]? = some gpu) (ha : cfg.aug_prob ≠ 1)
    (hi : cfg.save_epoch_interval ≠ 0) (hr : w.envLocalRank = 0)
    (hN : 1 ≤ (effNumEpochs cfg).toNat) :
    ∃ t1 t2, (run cfg w).1 =
        t1 ++ Ev.symlink ("model_" ++ toString (effNumEpochs cfg).toNat ++ ".pt")
          (modelDir cfg ++ "/final_model.pt") :: t2 ∧
      Ev.saveCkpt (effNumEpochs cfg).toNat
        (ckptPath cfg (effNumEpochs cfg).toNat) ∈ t1 := by
  rw [run_eq cfg w gpu hf hd hg ha hi]
  refine ⟨preBarrierTrace cfg w gpu ++ Ev.barrier :: (setupTrace cfg w
    ++ schedTrace cfg w ++ Ev.barrier :: Ev.barrier ::
      loopTrace cfg w.envLocalRank (effNumEpochs cfg).toNat
        (List.range' 1 (effNumEpochs cfg).toNat)), [], ?_, ?_⟩
  · simp [expectedTrace, tailTrace, hr, List.append_assoc]
  · simp only [List.mem_append, List.mem_cons]
    right
    right
    right
    right
    right
    have hmem : (effNumEpochs cfg).toNat ∈ List.range' 1 (effNumEpochs cfg).toNat :=
      List.mem_range'_1.mpr ⟨hN, by omega⟩
    have hflag : saveFlag cfg (effNumEpochs cfg).toNat (effNumEpochs cfg).toNat = true :=
      (saveFlag_iff cfg (effNumEpochs cfg).toNat (effNumEpochs cfg).toNat).mpr
        (Or.inr (by omega))
    exact (mem_loopTrace_saveCkpt cfg w.envLocalRank (effNumEpochs cfg).toNat
      (effNumEpochs cfg).toNat (ckptPath cfg (effNumEpochs cfg).toNat) _).mpr
      ⟨hr, hmem, hflag, rfl⟩

/-- Witness for the amended C9 at a concrete configuration and world. -/
theorem claim_C9_witness :
    ∃ t1 t2, (run cfg0 w0).1 =
        t1 ++ Ev.symlink ("model_" ++ toString (effNumEpochs cfg0).toNat ++ ".pt")
          (modelDir cfg0 ++ "/final_model.pt") :: t2 ∧
      Ev.saveCkpt (effNumEpochs cfg0).toNat
        (ckptPath cfg0 (effNumEpochs cfg0).toNat) ∈ t1 :=
  claim_C9 cfg0 w0 0 (fun _ => rfl) rfl rfl (by decide) (by decide) rfl (by decide)

/-- Claim C10: the projection class count is computed only when training
from scratch (model_init none): it is the number of distinct speakers of
the label file, tripled exactly when speed_perturb is set; with model_init
given, no projection module is ever added. -/
theorem claim_C10 (cfg : Cfg) (w : World) (gpu : Nat)
    (hf : ∀ s, w.extFail s = false) (hd : w.dirExists = false)
    (hg : cfg.gpus[w.envLocalRank]? = some gpu) (ha : cfg.aug_prob ≠ 1)
    (hi : cfg.save_epoch_interval ≠ 0) :
    (cfg.model_init = none →
      Ev.addProjection
        (if cfg.speed_perturb then distinctSpeakerCount w.labelList * 3
         else distinctSpeakerCount w.labelList) ∈ (run cfg w).1) ∧
    (∀ p, cfg.model_init = some p → ∀ n, Ev.addProjection n ∉ (run cfg w).1) := by
  rw [run_eq cfg w gpu hf hd hg ha hi]
  constructor
  · intro hm
    rw [← numClass_eq]
    simp [expectedTrace, preBarrierTrace, setupTrace, schedTrace, tailTrace,
      hm, List.mem_append, List.mem_cons]
  · intro p hm n
    by_cases hr : w.envLocalRank = 0 <;>
      simp [expectedTrace, preBarrierTrace, setupTrace, schedTrace, tailTrace,
        hm, hr, List.mem_append, List.mem_cons, addProjection_not_mem_loopTrace]

/-- Witness for C10 at a concrete configuration and world. -/
theorem claim_C10_witness :
    (cfg0.model_init = none →
      Ev.addProjection
        (if cfg0.speed_perturb then distinctSpeakerCount w0.labelList * 3
         else distinctSpeakerCount w0.labelList) ∈ (run cfg0 w0).1) ∧
    (∀ p, cfg0.model_init = some p → ∀ n, Ev.addProjection n ∉ (run cfg0 w0).1) :=
  claim_C10 cfg0 w0 0 (fun _ => rfl) rfl rfl (by decide) (by decide)

end WS
